import Mathlib

/-!
# Billing kill-switch: the webhook handler of `script.go`

A shallow embedding of `handler`, `getProjectNumberFromMetadata` and
`disableBilling`.  The program is sequential glue over outbound HTTP calls, so
the embedding threads an explicit state (the calls made through `client.Do`, in
order, and the log lines written) through each function.

Conventions of the embedding:

* Go strings and byte slices are modelled as `String` (well-formed Unicode text).
* `os.Getenv` and the answers of the remote endpoints are the `World`.  The
  answer to a call may depend on every call made before it and on the request.
* The JSON codec of `encoding/json` is taken as a parameter (`Codec`).
* `float64` values are carried as their IEEE-754 bit pattern.
* A nil-pointer dereference ends the function with `Exit.panicked`.
-/

namespace Killswitch

/-! ## float64 -/

/-- An IEEE-754 binary64 value, carried as its bit pattern (read modulo `2^64`). -/
structure Float64 where
  bits : Nat
deriving DecidableEq, Repr

namespace Float64

/-- Sign bit. -/
def sign (x : Float64) : Bool := (x.bits / 2 ^ 63) % 2 == 1

/-- Biased exponent field, 11 bits. -/
def exponent (x : Float64) : Nat := (x.bits / 2 ^ 52) % 2 ^ 11

/-- Fraction field, 52 bits. -/
def mantissa (x : Float64) : Nat := x.bits % 2 ^ 52

/-- Not-a-number: exponent all ones and a non-zero fraction. -/
def isNaN (x : Float64) : Bool := x.exponent == 2047 && x.mantissa != 0

/-- Exponent and fraction together: the order of magnitudes of non-NaN values. -/
def magnitude (x : Float64) : Nat := x.bits % 2 ^ 63

/-- Order-preserving image of the non-NaN values in the integers (both zeros go to 0). -/
def key (x : Float64) : Int := if x.sign then -(x.magnitude : Int) else (x.magnitude : Int)

/-- Go's `x >= y` on float64: false as soon as one side is NaN. -/
def ge (x y : Float64) : Bool := !x.isNaN && !y.isNaN && decide (y.key ≤ x.key)

/-- Go's `x < y` on float64: false as soon as one side is NaN. -/
def lt (x y : Float64) : Bool := !x.isNaN && !y.isNaN && decide (x.key < y.key)

/-- The constant `1.0`. -/
def one : Float64 := ⟨0x3FF0000000000000⟩

end Float64

/-! ## Data model -/

/-- The wrapper of a push subscription, `PubSubMessage`; `data` is `Message.Data`. -/
structure PubSubMessage where
  data : String
deriving DecidableEq, Repr

/-- The data of the budget alert, `BillingPayload`. -/
structure BillingPayload where
  Threshold : Float64
deriving DecidableEq, Repr

/-- An outbound `*http.Request` as built by `http.NewRequest` and `Header.Add`. -/
structure Request where
  method : String
  url : String
  header : List (String × String)
  body : Option String
deriving DecidableEq, Repr

/-- An `*http.Response` together with what `io.ReadAll(resp.Body)` gives: the bytes
read (`body`) and the read error, if any. -/
structure Response where
  StatusCode : Nat
  Status : String
  body : String
  readErr : Option String
deriving DecidableEq, Repr

/-- An argument of `log.Printf`. -/
inductive Arg where
  | str (s : String)
  | err (e : String)
  | float (x : Float64)
deriving DecidableEq, Repr

/-- One call of the `log` package. -/
inductive LogLine where
  | printf (format : String) (args : List Arg)
  | println (text : String)
deriving DecidableEq, Repr

/-- What a run has done so far: the requests handed to `client.Do`, oldest first,
and the log lines, oldest first. -/
structure State where
  trace : List Request
  log : List LogLine
deriving DecidableEq, Repr

/-- The `http.ResponseWriter`: the status written by `WriteHeader` (none when the
handler never wrote one) and the body written. -/
structure Writer where
  status : Option Nat
  body : String
deriving DecidableEq, Repr

/-- How a function ended. -/
inductive Exit where
  | returned
  | panicked
deriving DecidableEq, Repr

/-- The environment of one request: `os.Getenv("GCP_PROJECT_NUMBER")` (empty when
unset) and the outcome of `client.Do`, which may depend on the calls made before. -/
structure World where
  gcpProjectNumber : String
  roundTrip : List Request → Request → Except String Response

/-- The functions of `encoding/json` the program calls. `decodeToken` is the value of
`t.AccessToken` after `Decode`, whose error the program drops. -/
structure Codec where
  decodeEnvelope : String → Except String PubSubMessage
  unmarshalPayload : String → Except String BillingPayload
  decodeToken : String → String
  marshal : List (String × String) → String

/-! ## Library functions -/

/-- Go's `unicode.IsSpace`. -/
def isSpace (c : Char) : Bool :=
  let n := c.toNat
  (0x09 ≤ n && n ≤ 0x0D) || n == 0x20 || n == 0x85 || n == 0xA0 || n == 0x1680 ||
  (0x2000 ≤ n && n ≤ 0x200A) || n == 0x2028 || n == 0x2029 || n == 0x202F ||
  n == 0x205F || n == 0x3000

/-- Go's `bytes.TrimSpace`: leading and trailing white space sliced off. -/
def trimSpace (s : String) : String :=
  ⟨((s.data.dropWhile isSpace).reverse.dropWhile isSpace).reverse⟩

/-- The test of `stringContainsCTLByte` in `net/url`. -/
def isCTL (c : Char) : Bool := c.toNat < 0x20 || c.toNat == 0x7F

/-- The test `ishex` in `net/url`. -/
def ishex (c : Char) : Bool :=
  (0x30 ≤ c.toNat && c.toNat ≤ 0x39) || (0x61 ≤ c.toNat && c.toNat ≤ 0x66) ||
  (0x41 ≤ c.toNat && c.toNat ≤ 0x46)

/-- The scan of `unescape` in `net/url` for paths and fragments: every percent sign
is followed by two hexadecimal digits. The first argument counts the digits still owed. -/
def validEscapes : Nat → List Char → Bool
  | 0, [] => true
  | _ + 1, [] => false
  | 0, c :: rest => if c = '%' then validEscapes 2 rest else validEscapes 0 rest
  | n + 1, c :: rest => ishex c && validEscapes n rest

/-- Whether `url.Parse` accepts a URL whose scheme and authority are literal, as are
all URLs of this program: no control character before the fragment, and well-formed
percent escapes in the part before the query and in the fragment. -/
def urlParses (rawURL : String) : Bool :=
  let u := rawURL.data.takeWhile (fun c => c != '#')
  let frag := (rawURL.data.dropWhile (fun c => c != '#')).drop 1
  let path := u.takeWhile (fun c => c != '?')
  !(u.any isCTL) && validEscapes 0 path && validEscapes 0 frag

/-- The call `http.NewRequest` with a literal method: nil (none) when the URL does not parse. -/
def newRequest (method url : String) (body : Option String) : Option Request :=
  if urlParses url then some ⟨method, url, [], body⟩ else none

/-- The call `req.Header.Add`. -/
def Request.addHeader (r : Request) (k v : String) : Request :=
  { r with header := r.header ++ [(k, v)] }

/-- The call `client.Do`: the request joins the trace and the world answers. -/
def clientDo (w : World) (s : State) (req : Request) : Except String Response × State :=
  (w.roundTrip s.trace req, { s with trace := s.trace ++ [req] })

/-- The call `log.Printf`. -/
def logPrintf (s : State) (format : String) (args : List Arg) : State :=
  { s with log := s.log ++ [LogLine.printf format args] }

/-- The call `log.Println`. -/
def logPrintln (s : State) (text : String) : State :=
  { s with log := s.log ++ [LogLine.println text] }

/-- The call `http.Error`: the status and the message followed by a newline. -/
def httpError (w : Writer) (msg : String) (code : Nat) : Writer :=
  match w.status with
  | none => ⟨some code, w.body ++ msg ++ "\n"⟩
  | some _ => ⟨w.status, w.body ++ msg ++ "\n"⟩

/-- The call `w.WriteHeader`: only the first status written counts. -/
def writeHeader (w : Writer) (code : Nat) : Writer :=
  match w.status with
  | none => { w with status := some code }
  | some _ => w

/-! ## The program -/

def numericProjectIdURL : String :=
  "http://metadata.google.internal/computeMetadata/v1/project/numeric-project-id"

def tokenURL : String :=
  "http://metadata.google.internal/computeMetadata/v1/instance/service-accounts/default/token"

/-- The value of `billingURL` in `disableBilling`. -/
def billingURL (projectNumber : String) : String :=
  "https://cloudbilling.googleapis.com/v1/projects/" ++ projectNumber ++ "/billingInfo"

/-- The map `data` of `disableBilling`, in the order of the source. -/
def billingData (projectNumber : String) : List (String × String) :=
  [("name", "projects/" ++ projectNumber ++ "/billingInfo"), ("billingAccountName", "")]

/-- The function `getProjectNumberFromMetadata`; the result is none when it panics. -/
def getProjectNumberFromMetadata (w : World) (s : State) : Option String × State :=
  match newRequest "GET" numericProjectIdURL none with
  | none => (none, s) -- req is nil: req.Header panics
  | some req =>
    let req := req.addHeader "Metadata-Flavor" "Google"
    match clientDo w s req with
    | (.error _, s) => (some "", s)
    | (.ok resp, s) => (some (trimSpace resp.body), s)

/-- The function `disableBilling`. -/
def disableBilling (j : Codec) (w : World) (projectNumber : String) (s : State) :
    Exit × State :=
  -- 1. Fallback: fetch from the metadata server when projectNumber is empty
  let fallback : Option String × State :=
    if projectNumber = "" then
      let s := logPrintln s "DEBUG: projectNumber empty, attempting metadata fetch..."
      match newRequest "GET" numericProjectIdURL none with
      | none => (none, s) -- req is nil: req.Header panics
      | some req =>
        let req := req.addHeader "Metadata-Flavor" "Google"
        match clientDo w s req with
        | (.error _, s) => (some projectNumber, s)
        | (.ok resp, s) => (some (trimSpace resp.body), s)
    else (some projectNumber, s)
  match fallback with
  | (none, s) => (Exit.panicked, s)
  | (some projectNumber, s) =>
    if projectNumber = "" then
      (Exit.returned, logPrintln s "FAILURE: Could not determine Project Number.")
    else
      -- 2. Get the auth token
      match newRequest "GET" tokenURL none with
      | none => (Exit.panicked, s) -- tokenReq is nil: tokenReq.Header panics
      | some tokenReq =>
        let tokenReq := tokenReq.addHeader "Metadata-Flavor" "Google"
        match clientDo w s tokenReq with
        | (.error err, s) => (Exit.returned, logPrintf s "Token Error: %v" [Arg.err err])
        | (.ok tokenResp, s) =>
          let AccessToken := j.decodeToken tokenResp.body
          -- 3. Prepare the request
          let s := logPrintf s "DEBUG: Executing PUT to [%s]" [Arg.str (billingURL projectNumber)]
          let payload := j.marshal (billingData projectNumber)
          match newRequest "PUT" (billingURL projectNumber) (some payload) with
          | none => (Exit.panicked, s) -- req is nil: req.Header panics
          | some req =>
            let req := req.addHeader "Authorization" ("Bearer " ++ AccessToken)
            let req := req.addHeader "Content-Type" "application/json"
            let req := req.addHeader "Accept" "application/json"
            -- 4. Execute
            match clientDo w s req with
            | (.error err, s) => (Exit.returned, logPrintf s "Request Error: %v" [Arg.err err])
            | (.ok resp, s) =>
              if resp.StatusCode = 200 then
                (Exit.returned,
                  logPrintf s "SUCCESS: Project %s unlinked from billing." [Arg.str projectNumber])
              else
                (Exit.returned,
                  logPrintf s "FAILURE: Status %s - Body: %s" [Arg.str resp.Status, Arg.str resp.body])

/-- What one run of `handler` leaves behind. -/
structure Result where
  exit : Exit
  writer : Writer
  state : State
deriving DecidableEq, Repr

/-- The function `handler`, on the request body `body`. -/
def handler (j : Codec) (w : World) (body : String) : Result :=
  let wr : Writer := ⟨none, ""⟩
  let s : State := ⟨[], []⟩
  match j.decodeEnvelope body with
  | .error err =>
    let s := logPrintf s "Error decoding: %v" [Arg.err err]
    ⟨Exit.returned, httpError wr "Bad Request" 400, s⟩
  | .ok m =>
    match j.unmarshalPayload m.data with
    | .error err =>
      ⟨Exit.returned, wr, logPrintf s "Error unmarshaling inner data: %v" [Arg.err err]⟩
    | .ok data =>
      let s := logPrintf s "Alert received! Threshold: %.2f" [Arg.float data.Threshold]
      -- 1. Get the project number once (environment variable, metadata fallback)
      let resolved : Option String × State :=
        if w.gcpProjectNumber = "" then
          getProjectNumberFromMetadata w
            (logPrintln s "The GCP_PROJECT_NUMBER environment variable is not set. Requesting the information from metadata server...")
        else (some w.gcpProjectNumber, s)
      match resolved with
      | (none, s) => ⟨Exit.panicked, wr, s⟩
      | (some projectNumber, s) =>
        -- 2. Trigger logic
        let triggered : Exit × State :=
          if data.Threshold.ge Float64.one then
            if projectNumber ≠ "" then
              disableBilling j w projectNumber
                (logPrintln s "CRITICAL: 100% threshold reached. Initiating billing disconnect...")
            else
              (Exit.returned, logPrintln s "ERROR: Threshold reached but Project Number is unknown!")
          else (Exit.returned, s)
        match triggered with
        | (Exit.panicked, s) => ⟨Exit.panicked, wr, s⟩
        | (Exit.returned, s) => ⟨Exit.returned, writeHeader wr 200, s⟩

/-- The status the client receives: the one written, 200 when the handler returned
without writing one, none when the handler panicked. -/
def Result.responseStatus (r : Result) : Option Nat :=
  match r.exit with
  | Exit.panicked => none
  | Exit.returned => some (r.writer.status.getD 200)

/-! ## Observations on a trace -/

/-- A PUT to the billingInfo resource: the only PUT the program builds. -/
def isBillingPut (r : Request) : Bool := r.method == "PUT"

/-- A GET to the numeric-project-id endpoint of the metadata server. -/
def isProjectNumberLookup (r : Request) : Bool :=
  r.method == "GET" && r.url == numericProjectIdURL

/-- A GET to the token endpoint of the metadata server. -/
def isTokenRequest (r : Request) : Bool := r.method == "GET" && r.url == tokenURL

/-- The project-number lookup as the spec describes it (section 6). -/
def projectNumberRequest : Request :=
  ⟨"GET", numericProjectIdURL, [("Metadata-Flavor", "Google")], none⟩

/-- The token request as the spec describes it (section 6). -/
def tokenRequest : Request :=
  ⟨"GET", tokenURL, [("Metadata-Flavor", "Google")], none⟩

/-- The billing request as the spec describes it (section 6), for project `p` and token `k`. -/
def billingRequest (j : Codec) (p k : String) : Request :=
  ⟨"PUT", "https://cloudbilling.googleapis.com/v1/projects/" ++ p ++ "/billingInfo",
    [("Authorization", "Bearer " ++ k), ("Content-Type", "application/json"),
      ("Accept", "application/json")],
    some (j.marshal [("name", "projects/" ++ p ++ "/billingInfo"), ("billingAccountName", "")])⟩

/-! ## Sample environment: the scenarios of the spec (section 8) -/

/-- The bit pattern of `0.9`. -/
def ninetyPercent : Float64 := ⟨0x3FECCCCCCCCCCCCD⟩

/-- The order of map keys in `json.Marshal`: byte-wise lexicographic. -/
def keyLe : List Char → List Char → Bool
  | [], _ => true
  | _ :: _, [] => false
  | a :: as, b :: bs => a.toNat < b.toNat || (a.toNat == b.toNat && keyLe as bs)

/-- Insertion of one member into a list of members sorted by key. -/
def insertMember (kv : String × String) : List (String × String) → List (String × String)
  | [] => [kv]
  | x :: xs => if keyLe kv.1.data x.1.data then kv :: x :: xs else x :: insertMember kv xs

/-- The members of a JSON object, separated by commas. -/
def joinMembers : List (String × String) → String
  | [] => ""
  | [kv] => "\"" ++ kv.1 ++ "\":\"" ++ kv.2 ++ "\""
  | kv :: x :: xs => "\"" ++ kv.1 ++ "\":\"" ++ kv.2 ++ "\"," ++ joinMembers (x :: xs)

/-- The inner payload with threshold `1.0`. -/
def payloadFull : String := "\x7b\"alertThresholdExceeded\":1.0\x7d"

/-- The inner payload with threshold `0.9`. -/
def payloadWarn : String := "\x7b\"alertThresholdExceeded\":0.9\x7d"

/-- The envelope of the scenario with threshold `1.0`; the data is `payloadFull` in base64. -/
def envelopeFull : String :=
  "\x7b\"message\":\x7b\"data\":\"eyJhbGVydFRocmVzaG9sZEV4Y2VlZGVkIjoxLjB9\"\x7d\x7d"

/-- The envelope of the scenario with threshold `0.9`; the data is `payloadWarn` in base64. -/
def envelopeWarn : String :=
  "\x7b\"message\":\x7b\"data\":\"eyJhbGVydFRocmVzaG9sZEV4Y2VlZGVkIjowLjl9\"\x7d\x7d"

/-- An envelope without a data field. -/
def envelopeEmpty : String := "\x7b\"message\":\x7b\x7d\x7d"

/-- The token document of the scenarios. -/
def tokenDocument : String := "\x7b\"access_token\":\"tok\"\x7d"

/-- A codec that answers as `encoding/json` does on the texts of the scenarios: the
three envelopes above, the two inner payloads, the token document, and maps of strings
that need no escaping (members sorted by key). Other texts are reported as malformed. -/
def sampleCodec : Codec where
  decodeEnvelope := fun b =>
    if b = envelopeFull then .ok ⟨payloadFull⟩
    else if b = envelopeWarn then .ok ⟨payloadWarn⟩
    else if b = envelopeEmpty then .ok ⟨""⟩
    else .error "invalid character"
  unmarshalPayload := fun b =>
    if b = payloadFull then .ok ⟨Float64.one⟩
    else if b = payloadWarn then .ok ⟨ninetyPercent⟩
    else .error "unexpected end of JSON input"
  decodeToken := fun b => if b = tokenDocument then "tok" else ""
  marshal := fun m => "\x7b" ++ joinMembers (m.foldr insertMember []) ++ "\x7d"

/-- A response with status `200 OK` and the given body. -/
def okResponse (body : String) : Response := ⟨200, "200 OK", body, none⟩

/-- A world with the given `GCP_PROJECT_NUMBER` and the given answers of the
project-number endpoint, of the token endpoint and of the billing endpoint. -/
def sampleWorld (projectNumber : String) (lookup token billing : Except String Response) :
    World where
  gcpProjectNumber := projectNumber
  roundTrip := fun _ r =>
    if r.url = numericProjectIdURL then lookup
    else if r.url = tokenURL then token
    else billing

/-- The scenario of the spec: `GCP_PROJECT_NUMBER=12345`, token `tok`, billing answers 200. -/
def worldConfigured : World :=
  sampleWorld "12345" (.ok (okResponse "777\n")) (.ok (okResponse tokenDocument))
    (.ok (okResponse ""))

/-- As `worldConfigured`, but the billing endpoint answers 403 with an error document. -/
def worldForbidden : World :=
  sampleWorld "12345" (.ok (okResponse "777\n")) (.ok (okResponse tokenDocument))
    (.ok ⟨403, "403 Forbidden", "\x7b\"error\":\"forbidden\"\x7d", none⟩)

/-- As `worldConfigured`, but the token request fails in transport. -/
def worldTokenDown : World :=
  sampleWorld "12345" (.ok (okResponse "777\n")) (.error "dial tcp: connection refused")
    (.ok (okResponse ""))

/-- No `GCP_PROJECT_NUMBER`; the metadata server answers the lookup with `777` and a newline. -/
def worldUnset : World :=
  sampleWorld "" (.ok (okResponse "777\n")) (.ok (okResponse tokenDocument)) (.ok (okResponse ""))

/-- No `GCP_PROJECT_NUMBER`, and the metadata lookup fails in transport. -/
def worldMetadataDown : World :=
  sampleWorld "" (.error "dial tcp: i/o timeout") (.ok (okResponse tokenDocument))
    (.ok (okResponse ""))

/-- No `GCP_PROJECT_NUMBER`, and the metadata server answers the lookup with an error
response: status 404, body `Not Found` and a newline. -/
def worldLookupNotFound : World :=
  sampleWorld "" (.ok ⟨404, "404 Not Found", "Not Found\n", none⟩)
    (.ok (okResponse tokenDocument)) (.ok (okResponse ""))

/-- The project identifier of a request, by the priority of the spec: the
configuration value, else the metadata lookup made first. -/
def resolvedProjectNumber (w : World) : String :=
  if w.gcpProjectNumber = "" then ((getProjectNumberFromMetadata w ⟨[], []⟩).1).getD ""
  else w.gcpProjectNumber

/-- The calls `handler` has made when it reaches its trigger logic. -/
def resolutionCalls (w : World) : List Request :=
  if w.gcpProjectNumber = "" then [projectNumberRequest] else []

/-- A character that ends neither the path nor the URL and opens no escape. -/
def isPlain (c : Char) : Bool := c != '#' && c != '?' && c != '%' && !isCTL c

/-- A project number written in decimal digits. -/
def isNumeric (p : String) : Bool := p.data.all Char.isDigit

end Killswitch

namespace Killswitch

/-! ## Auxiliary facts -/

theorem urlParses_numericProjectId : urlParses numericProjectIdURL = true := by decide

theorem urlParses_token : urlParses tokenURL = true := by decide

theorem Float64.ge_false_of_lt (x y : Float64) (h : x.lt y = true) : x.ge y = false := by
  simp only [Float64.lt, Float64.ge, Bool.and_eq_true, Bool.not_eq_true', decide_eq_true_eq,
    Bool.and_eq_false_imp, decide_eq_false_iff_not] at *
  omega

/-- The lookup makes one call and returns the trimmed body, or the empty string when
the call fails in transport. -/
theorem getProjectNumberFromMetadata_eq (w : World) (s : State) :
    getProjectNumberFromMetadata w s =
      (some (match w.roundTrip s.trace projectNumberRequest with
          | .error _ => ""
          | .ok resp => trimSpace resp.body),
        ⟨s.trace ++ [projectNumberRequest], s.log⟩) := by
  unfold getProjectNumberFromMetadata
  simp only [newRequest, urlParses_numericProjectId, if_true, Request.addHeader, clientDo,
    List.nil_append]
  cases h : w.roundTrip s.trace ⟨"GET", numericProjectIdURL, [("Metadata-Flavor", "Google")], none⟩ with
  | error e => simp [projectNumberRequest, h]
  | ok resp => simp [projectNumberRequest, h]

/-- The run of `disableBilling` on a non-empty project number. -/
theorem disableBilling_of_ne (j : Codec) (w : World) (p : String) (s : State) (hp : p ≠ "") :
    disableBilling j w p s =
      match w.roundTrip s.trace tokenRequest with
      | .error err =>
        (Exit.returned, ⟨s.trace ++ [tokenRequest],
          s.log ++ [LogLine.printf "Token Error: %v" [Arg.err err]]⟩)
      | .ok tokenResp =>
        if urlParses (billingURL p) then
          match w.roundTrip (s.trace ++ [tokenRequest])
              (billingRequest j p (j.decodeToken tokenResp.body)) with
          | .error err =>
            (Exit.returned,
              ⟨s.trace ++ [tokenRequest, billingRequest j p (j.decodeToken tokenResp.body)],
                s.log ++ [LogLine.printf "DEBUG: Executing PUT to [%s]" [Arg.str (billingURL p)],
                  LogLine.printf "Request Error: %v" [Arg.err err]]⟩)
          | .ok resp =>
            if resp.StatusCode = 200 then
              (Exit.returned,
                ⟨s.trace ++ [tokenRequest, billingRequest j p (j.decodeToken tokenResp.body)],
                  s.log ++ [LogLine.printf "DEBUG: Executing PUT to [%s]" [Arg.str (billingURL p)],
                    LogLine.printf "SUCCESS: Project %s unlinked from billing." [Arg.str p]]⟩)
            else
              (Exit.returned,
                ⟨s.trace ++ [tokenRequest, billingRequest j p (j.decodeToken tokenResp.body)],
                  s.log ++ [LogLine.printf "DEBUG: Executing PUT to [%s]" [Arg.str (billingURL p)],
                    LogLine.printf "FAILURE: Status %s - Body: %s"
                      [Arg.str resp.Status, Arg.str resp.body]]⟩)
        else
          (Exit.panicked, ⟨s.trace ++ [tokenRequest],
            s.log ++ [LogLine.printf "DEBUG: Executing PUT to [%s]" [Arg.str (billingURL p)]]⟩) := by
  unfold disableBilling
  simp only [hp, if_false, urlParses_token, if_true, Request.addHeader, clientDo,
    List.nil_append, tokenRequest, logPrintf, newRequest]
  cases h : w.roundTrip s.trace ⟨"GET", tokenURL, [("Metadata-Flavor", "Google")], none⟩ with
  | error e => simp
  | ok tokenResp =>
    by_cases hu : urlParses (billingURL p) = true
    · simp only [hu, if_true, List.nil_append, billingRequest, billingData, billingURL,
        List.append_assoc, List.singleton_append] at *
      cases h2 : w.roundTrip (s.trace ++ [⟨"GET", tokenURL, [("Metadata-Flavor", "Google")], none⟩])
          ⟨"PUT", "https://cloudbilling.googleapis.com/v1/projects/" ++ p ++ "/billingInfo",
            [("Authorization", "Bearer " ++ j.decodeToken tokenResp.body),
              ("Content-Type", "application/json"), ("Accept", "application/json")],
            some (j.marshal [("name", "projects/" ++ p ++ "/billingInfo"),
              ("billingAccountName", "")])⟩ with
      | error e => simp [h2]
      | ok resp => by_cases h200 : resp.StatusCode = 200 <;> simp [h2, h200]
    · simp [hu]

/-- The run of `disableBilling` on the empty project number: the inline fallback. -/
theorem disableBilling_empty (j : Codec) (w : World) (s : State) :
    disableBilling j w "" s =
      match w.roundTrip s.trace projectNumberRequest with
      | .error _ =>
        (Exit.returned, ⟨s.trace ++ [projectNumberRequest],
          s.log ++ [LogLine.println "DEBUG: projectNumber empty, attempting metadata fetch...",
            LogLine.println "FAILURE: Could not determine Project Number."]⟩)
      | .ok resp =>
        if trimSpace resp.body = "" then
          (Exit.returned, ⟨s.trace ++ [projectNumberRequest],
            s.log ++ [LogLine.println "DEBUG: projectNumber empty, attempting metadata fetch...",
              LogLine.println "FAILURE: Could not determine Project Number."]⟩)
        else
          disableBilling j w (trimSpace resp.body) ⟨s.trace ++ [projectNumberRequest],
            s.log ++ [LogLine.println "DEBUG: projectNumber empty, attempting metadata fetch..."]⟩ := by
  cases h : w.roundTrip s.trace projectNumberRequest with
  | error e =>
    unfold disableBilling
    simp only [projectNumberRequest] at h
    simp [newRequest, urlParses_numericProjectId, Request.addHeader, clientDo, logPrintln, h,
      projectNumberRequest]
  | ok resp =>
    by_cases he : trimSpace resp.body = ""
    · unfold disableBilling
      simp only [projectNumberRequest] at h
      simp [newRequest, urlParses_numericProjectId, Request.addHeader, clientDo, logPrintln, h,
        projectNumberRequest, he]
    · simp only [he, if_false]
      unfold disableBilling
      simp only [projectNumberRequest] at h
      simp [newRequest, urlParses_numericProjectId, Request.addHeader, clientDo, logPrintln, h,
        projectNumberRequest, he]

/-- The run of `handler` once the envelope and the inner payload have decoded. -/
theorem handler_decoded (j : Codec) (w : World) (body : String) (m : PubSubMessage)
    (data : BillingPayload) (hm : j.decodeEnvelope body = .ok m)
    (hd : j.unmarshalPayload m.data = .ok data) :
    handler j w body =
      let alert := LogLine.printf "Alert received! Threshold: %.2f" [Arg.float data.Threshold]
      let s : State :=
        if w.gcpProjectNumber = "" then
          ⟨[projectNumberRequest], [alert, LogLine.println "The GCP_PROJECT_NUMBER environment variable is not set. Requesting the information from metadata server..."]⟩
        else ⟨[], [alert]⟩
      if data.Threshold.ge Float64.one then
        if resolvedProjectNumber w ≠ "" then
          match disableBilling j w (resolvedProjectNumber w)
              (logPrintln s "CRITICAL: 100% threshold reached. Initiating billing disconnect...") with
          | (Exit.panicked, s) => ⟨Exit.panicked, ⟨none, ""⟩, s⟩
          | (Exit.returned, s) => ⟨Exit.returned, ⟨some 200, ""⟩, s⟩
        else
          ⟨Exit.returned, ⟨some 200, ""⟩,
            logPrintln s "ERROR: Threshold reached but Project Number is unknown!"⟩
      else ⟨Exit.returned, ⟨some 200, ""⟩, s⟩ := by
  unfold handler
  simp only [hm, hd, resolvedProjectNumber, getProjectNumberFromMetadata_eq, logPrintf,
    logPrintln, List.nil_append, writeHeader]
  by_cases ht : data.Threshold.ge Float64.one = true
  · by_cases he : w.gcpProjectNumber = ""
    · simp only [he, if_true, Option.getD_some, ht]
      generalize (match w.roundTrip [] projectNumberRequest with
        | .error _ => ""
        | .ok resp => trimSpace resp.body) = p
      by_cases hp : p = ""
      · simp [hp]
      · simp only [ne_eq, hp, not_false_eq_true, if_true, List.cons_append, List.nil_append]
    · simp only [he, if_false, ht, if_true, ne_eq, not_false_eq_true, List.cons_append,
        List.nil_append]
  · by_cases he : w.gcpProjectNumber = "" <;> simp [ht, he]

/-- The calls of `disableBilling` on a non-empty project number: the token request,
followed by at most one request, which is then the billing request. -/
theorem disableBilling_calls_of_ne (j : Codec) (w : World) (p : String) (s : State)
    (hp : p ≠ "") :
    (disableBilling j w p s).2.trace = s.trace ++ [tokenRequest] ∨
      ∃ k, (disableBilling j w p s).2.trace = s.trace ++ [tokenRequest, billingRequest j p k] := by
  rw [disableBilling_of_ne j w p s hp]
  cases w.roundTrip s.trace tokenRequest with
  | error e => exact Or.inl rfl
  | ok tokenResp =>
    by_cases hu : urlParses (billingURL p) = true
    · right
      refine ⟨j.decodeToken tokenResp.body, ?_⟩
      simp only [hu, if_true]
      cases w.roundTrip (s.trace ++ [tokenRequest])
          (billingRequest j p (j.decodeToken tokenResp.body)) with
      | error e => rfl
      | ok resp => by_cases h200 : resp.StatusCode = 200 <;> simp [h200]
    · left
      simp [hu]

theorem validEscapes_of_no_percent (l : List Char) (h : ∀ c ∈ l, c ≠ '%') :
    validEscapes 0 l = true := by
  induction l with
  | nil => rfl
  | cons c rest ih =>
    have hc : c ≠ '%' := h c (List.mem_cons_self _ _)
    simp only [validEscapes, hc, if_false]
    exact ih (fun d hd => h d (List.mem_cons_of_mem _ hd))

theorem urlParses_of_plain (u : String) (h : u.data.all isPlain = true) :
    urlParses u = true := by
  have hall : ∀ c ∈ u.data, c ≠ '#' ∧ c ≠ '?' ∧ c ≠ '%' ∧ isCTL c = false := by
    intro c hc
    have := List.all_eq_true.mp h c hc
    simp only [isPlain, Bool.and_eq_true, bne_iff_ne, ne_eq, Bool.not_eq_true'] at this
    exact ⟨this.1.1.1, this.1.1.2, this.1.2, this.2⟩
  have h1 : u.data.takeWhile (fun c => c != '#') = u.data := by
    rw [List.takeWhile_eq_self_iff]
    intro c hc
    simpa using (hall c hc).1
  have h2 : u.data.dropWhile (fun c => c != '#') = [] := by
    rw [List.dropWhile_eq_nil_iff]
    intro c hc
    simpa using (hall c hc).1
  have h3 : u.data.takeWhile (fun c => c != '?') = u.data := by
    rw [List.takeWhile_eq_self_iff]
    intro c hc
    simpa using (hall c hc).2.1
  have h4 : u.data.any isCTL = false := by
    rw [List.any_eq_false]
    intro c hc
    simpa using (hall c hc).2.2.2
  have h5 : validEscapes 0 u.data = true :=
    validEscapes_of_no_percent _ (fun c hc => (hall c hc).2.2.1)
  simp only [urlParses, h1, h2, h3, h4, h5, List.drop_nil]
  rfl

theorem isPlain_of_isDigit (c : Char) (h : c.isDigit = true) : isPlain c = true := by
  simp only [Char.isDigit, Bool.and_eq_true, decide_eq_true_eq] at h
  obtain ⟨h1, h2⟩ := h
  have h1' : 48 ≤ c.toNat := h1
  have h2' : c.toNat ≤ 57 := h2
  have e1 : c ≠ '#' := by
    intro e
    rw [e] at h1'
    exact absurd h1' (by decide)
  have e2 : c ≠ '?' := by
    intro e
    rw [e] at h2'
    exact absurd h2' (by decide)
  have e3 : c ≠ '%' := by
    intro e
    rw [e] at h1'
    exact absurd h1' (by decide)
  have e4 : isCTL c = false := by
    simp only [isCTL, Bool.or_eq_false_iff, decide_eq_false_iff_not, beq_eq_false_iff_ne]
    omega
  simp [isPlain, e1, e2, e3, e4]

theorem urlParses_billingURL_of_numeric (p : String) (h : isNumeric p = true) :
    urlParses (billingURL p) = true := by
  apply urlParses_of_plain
  simp only [billingURL, String.data_append, List.all_append, Bool.and_eq_true]
  refine ⟨⟨by decide, ?_⟩, by decide⟩
  rw [List.all_eq_true]
  intro c hc
  exact isPlain_of_isDigit c (List.all_eq_true.mp h c hc)

/-- What slicing white space off both ends leaves: the text is the result between two
runs of white space, and the result neither starts nor ends with white space. -/
theorem trim_core (p : Char → Bool) (l : List Char) :
    ∃ pre post, l = pre ++ ((l.dropWhile p).reverse.dropWhile p).reverse ++ post ∧
      pre.all p = true ∧ post.all p = true ∧
      (((l.dropWhile p).reverse.dropWhile p).reverse.head?.any p = false) ∧
      (((l.dropWhile p).reverse.dropWhile p).reverse.getLast?.any p = false) := by
  refine ⟨l.takeWhile p, ((l.dropWhile p).reverse.takeWhile p).reverse, ?_, ?_, ?_, ?_, ?_⟩
  · have h1 : ((l.dropWhile p).reverse.dropWhile p).reverse ++
        ((l.dropWhile p).reverse.takeWhile p).reverse = l.dropWhile p := by
      rw [← List.reverse_append, List.takeWhile_append_dropWhile, List.reverse_reverse]
    rw [List.append_assoc, h1, List.takeWhile_append_dropWhile]
  · simp
  · simp
  · have h1 : ((l.dropWhile p).reverse.dropWhile p).reverse ++
        ((l.dropWhile p).reverse.takeWhile p).reverse = l.dropWhile p := by
      rw [← List.reverse_append, List.takeWhile_append_dropWhile, List.reverse_reverse]
    have h2 := List.head?_dropWhile_not p l
    rw [← h1] at h2
    generalize ((l.dropWhile p).reverse.dropWhile p).reverse = t at h2
    cases t with
    | nil => rfl
    | cons c t => simpa using h2
  · rw [List.getLast?_reverse]
    have h2 := List.head?_dropWhile_not p (l.dropWhile p).reverse
    generalize (List.dropWhile p (l.dropWhile p).reverse) = t at h2
    cases t with
    | nil => rfl
    | cons c t => simpa using h2

/-- No outbound call when the envelope does not decode. -/
theorem trace_of_bad_envelope (j : Codec) (w : World) (body : String) (e : String)
    (hm : j.decodeEnvelope body = .error e) : (handler j w body).state.trace = [] := by
  unfold handler
  simp [hm, logPrintf]

/-- No outbound call when the inner payload does not decode. -/
theorem trace_of_bad_payload (j : Codec) (w : World) (body : String) (m : PubSubMessage)
    (e : String) (hm : j.decodeEnvelope body = .ok m)
    (hd : j.unmarshalPayload m.data = .error e) : (handler j w body).state.trace = [] := by
  unfold handler
  simp [hm, hd, logPrintf]

/-! ## The claims -/

/-- C1: when the envelope and the inner payload decode and the threshold is below 1.0,
`handler` hands no PUT and no token request to the HTTP client, and the line that
announces the billing disconnect is not logged, whatever `GCP_PROJECT_NUMBER` is and
however the endpoints behave. -/
theorem handler_below_threshold_no_billing_call (j : Codec) (w : World) (body : String)
    (m : PubSubMessage) (data : BillingPayload) (hm : j.decodeEnvelope body = .ok m)
    (hd : j.unmarshalPayload m.data = .ok data)
    (ht : data.Threshold.lt Float64.one = true) :
    (handler j w body).state.trace.filter isBillingPut = [] ∧
    (handler j w body).state.trace.filter isTokenRequest = [] ∧
    LogLine.println "CRITICAL: 100% threshold reached. Initiating billing disconnect..." ∉
      (handler j w body).state.log := by
  rw [handler_decoded j w body m data hm hd]
  simp only [Float64.ge_false_of_lt _ _ ht, Bool.false_eq_true, if_false]
  by_cases he : w.gcpProjectNumber = ""
  · simp only [he, if_true]
    refine ⟨by decide, by decide, ?_⟩
    simp
  · simp [he]

/-- Witness of C1: the scenario with threshold 0.9 and no `GCP_PROJECT_NUMBER`. -/
theorem handler_below_threshold_no_billing_call_witness :
    (handler sampleCodec worldUnset envelopeWarn).state.trace.filter isBillingPut = [] ∧
    (handler sampleCodec worldUnset envelopeWarn).state.trace.filter isTokenRequest = [] ∧
    LogLine.println "CRITICAL: 100% threshold reached. Initiating billing disconnect..." ∉
      (handler sampleCodec worldUnset envelopeWarn).state.log :=
  handler_below_threshold_no_billing_call sampleCodec _ envelopeWarn ⟨payloadWarn⟩
    ⟨ninetyPercent⟩ rfl rfl (by decide)

/-- Counterexample to C2: `GCP_PROJECT_NUMBER=12345` and threshold 1.0, but the token
request fails in transport: `disableBilling` returns after logging the token error and
no billing PUT is attempted. -/
theorem handler_token_failure_no_put :
    sampleCodec.decodeEnvelope envelopeFull = .ok ⟨payloadFull⟩ ∧
    sampleCodec.unmarshalPayload payloadFull = .ok ⟨Float64.one⟩ ∧
    Float64.one.ge Float64.one = true ∧
    worldTokenDown.gcpProjectNumber ≠ "" ∧
    (handler sampleCodec worldTokenDown envelopeFull).state.trace.filter isBillingPut = [] ∧
    (handler sampleCodec worldTokenDown envelopeFull).state.log.getLast? =
      some (LogLine.printf "Token Error: %v" [Arg.err "dial tcp: connection refused"]) := by
  refine ⟨rfl, rfl, by decide, by decide, by decide, by decide⟩

/-- C2, amended: when the envelope and the inner payload decode with a threshold of at
least 1.0, the project identifier resolves to a non-empty string (the value of
`GCP_PROJECT_NUMBER`, or else the answer of the metadata lookup) and `http.NewRequest`
accepts the billing URL built from it, then `handler` attempts exactly one billing PUT,
the request of the spec, if the token request gets a response, and none if the token
request fails in transport. -/
theorem handler_at_threshold_billing_put (j : Codec) (w : World) (body : String)
    (m : PubSubMessage) (data : BillingPayload) (hm : j.decodeEnvelope body = .ok m)
    (hd : j.unmarshalPayload m.data = .ok data)
    (ht : data.Threshold.ge Float64.one = true)
    (hp : resolvedProjectNumber w ≠ "")
    (hu : urlParses (billingURL (resolvedProjectNumber w)) = true) :
    (handler j w body).state.trace.filter isBillingPut =
      match w.roundTrip (resolutionCalls w) tokenRequest with
      | .error _ => []
      | .ok tokenResp =>
        [billingRequest j (resolvedProjectNumber w) (j.decodeToken tokenResp.body)] := by
  rw [handler_decoded j w body m data hm hd]
  simp only [ht, if_true, ne_eq, hp, not_false_eq_true, logPrintln]
  rw [disableBilling_of_ne j w _ _ hp]
  have hget : isBillingPut tokenRequest = false := by decide
  have hlook : isBillingPut projectNumberRequest = false := by decide
  have hput : ∀ k, isBillingPut (billingRequest j (resolvedProjectNumber w) k) = true := by
    intro k
    simp [isBillingPut, billingRequest]
  have htr : (if w.gcpProjectNumber = "" then
      (⟨[projectNumberRequest], [LogLine.printf "Alert received! Threshold: %.2f"
          [Arg.float data.Threshold], LogLine.println "The GCP_PROJECT_NUMBER environment variable is not set. Requesting the information from metadata server..."]⟩ : State)
      else ⟨[], [LogLine.printf "Alert received! Threshold: %.2f"
          [Arg.float data.Threshold]]⟩).trace = resolutionCalls w := by
    by_cases he : w.gcpProjectNumber = "" <;> simp [he, resolutionCalls]
  have hres : (resolutionCalls w).filter isBillingPut = [] := by
    by_cases he : w.gcpProjectNumber = "" <;> simp [he, resolutionCalls, hlook]
  simp only [htr]
  cases w.roundTrip (resolutionCalls w) tokenRequest with
  | error e => simp [hres, hget]
  | ok tokenResp =>
    simp only [hu, if_true]
    cases w.roundTrip (resolutionCalls w ++ [tokenRequest])
        (billingRequest j (resolvedProjectNumber w) (j.decodeToken tokenResp.body)) with
    | error e => simp [hres, hget, hput]
    | ok resp =>
      by_cases h200 : resp.StatusCode = 200 <;> simp [h200, hres, hget, hput]

/-- Witness of C2, amended: the scenario with `GCP_PROJECT_NUMBER=12345`, threshold
1.0 and token `tok`. -/
theorem handler_at_threshold_billing_put_witness :
    (handler sampleCodec worldConfigured envelopeFull).state.trace.filter isBillingPut =
      [billingRequest sampleCodec "12345" "tok"] :=
  (handler_at_threshold_billing_put sampleCodec worldConfigured envelopeFull
    ⟨payloadFull⟩ ⟨Float64.one⟩ rfl rfl (by decide) (by decide) (by decide)).trans (by decide)

/-- C3: when the body does not decode as the outer envelope, `handler` answers with
status 400 and makes no outbound call at all, whatever `GCP_PROJECT_NUMBER` is. -/
theorem handler_bad_envelope (j : Codec) (w : World) (body : String) (e : String)
    (hm : j.decodeEnvelope body = .error e) :
    (handler j w body).responseStatus = some 400 ∧
    (handler j w body).writer.status = some 400 ∧
    (handler j w body).state.trace = [] := by
  unfold handler
  simp [hm, Result.responseStatus, httpError, logPrintf]

/-- Witness of C3: a body that is not JSON. -/
theorem handler_bad_envelope_witness :
    (handler sampleCodec worldUnset "not json").responseStatus = some 400 ∧
    (handler sampleCodec worldUnset "not json").writer.status = some 400 ∧
    (handler sampleCodec worldUnset "not json").state.trace = [] :=
  handler_bad_envelope sampleCodec _ "not json" "invalid character" rfl

/-- C4: when the envelope decodes and its data does not decode as the alert payload,
`handler` writes no status, so the response is the 200 of a handler that returns
without writing, and no billing PUT occurs: no outbound call is made at all. -/
theorem handler_bad_payload (j : Codec) (w : World) (body : String) (m : PubSubMessage)
    (e : String) (hm : j.decodeEnvelope body = .ok m)
    (hd : j.unmarshalPayload m.data = .error e) :
    (handler j w body).responseStatus = some 200 ∧
    (handler j w body).writer.status = none ∧
    (handler j w body).state.trace.filter isBillingPut = [] ∧
    (handler j w body).state.trace = [] := by
  unfold handler
  simp [hm, hd, Result.responseStatus, logPrintf]

/-- Witness of C4: an envelope without a data field. -/
theorem handler_bad_payload_witness :
    (handler sampleCodec worldConfigured envelopeEmpty).responseStatus = some 200 ∧
    (handler sampleCodec worldConfigured envelopeEmpty).writer.status = none ∧
    (handler sampleCodec worldConfigured envelopeEmpty).state.trace.filter isBillingPut = [] ∧
    (handler sampleCodec worldConfigured envelopeEmpty).state.trace = [] :=
  handler_bad_payload sampleCodec _ envelopeEmpty ⟨""⟩ "unexpected end of JSON input" rfl rfl

/-- C5: for every non-empty project number `p` and every answer of the token endpoint,
with `k` the access token decoded from it, the calls of `disableBilling(p)` are the
token request followed by the billing request it has built, and that request has
method PUT, URL `https://cloudbilling.googleapis.com/v1/projects/p/billingInfo`, the
headers `Authorization: Bearer k`, `Content-Type: application/json` and
`Accept: application/json`, in this order, and as body the JSON encoding of the map
with the two members `name = projects/p/billingInfo` and `billingAccountName = ""`.
The request is built whenever `http.NewRequest` accepts the URL, as it does for every
`p` written in decimal digits; no other PUT is ever made. -/
theorem disableBilling_request (j : Codec) (w : World) (p : String) (s : State)
    (tokenResp : Response) (hp : p ≠ "")
    (htok : w.roundTrip s.trace tokenRequest = .ok tokenResp) :
    (disableBilling j w p s).2.trace =
      s.trace ++ tokenRequest ::
        (if urlParses (billingURL p) then
          [⟨"PUT", "https://cloudbilling.googleapis.com/v1/projects/" ++ p ++ "/billingInfo",
            [("Authorization", "Bearer " ++ j.decodeToken tokenResp.body),
              ("Content-Type", "application/json"), ("Accept", "application/json")],
            some (j.marshal [("name", "projects/" ++ p ++ "/billingInfo"),
              ("billingAccountName", "")])⟩]
        else []) ∧
    (isNumeric p = true → urlParses (billingURL p) = true) := by
  refine ⟨?_, urlParses_billingURL_of_numeric p⟩
  rw [disableBilling_of_ne j w p s hp, htok]
  by_cases hu : urlParses (billingURL p) = true
  · simp only [hu, if_true]
    cases w.roundTrip (s.trace ++ [tokenRequest])
        (billingRequest j p (j.decodeToken tokenResp.body)) with
    | error e => simp [billingRequest]
    | ok resp => by_cases h200 : resp.StatusCode = 200 <;> simp [h200, billingRequest]
  · simp [hu]

/-- Witness of C5: `p = 12345` and `k = tok`; the body is the text of the scenario, with
the members in the key order of `json.Marshal`. -/
theorem disableBilling_request_witness :
    (disableBilling sampleCodec worldConfigured "12345" ⟨[], []⟩).2.trace =
      [tokenRequest,
        ⟨"PUT", "https://cloudbilling.googleapis.com/v1/projects/12345/billingInfo",
          [("Authorization", "Bearer tok"), ("Content-Type", "application/json"),
            ("Accept", "application/json")],
          some "\x7b\"billingAccountName\":\"\",\"name\":\"projects/12345/billingInfo\"\x7d"⟩] :=
  (disableBilling_request sampleCodec worldConfigured "12345" ⟨[], []⟩
    (okResponse tokenDocument) (by decide) rfl).1.trans (by decide)

/-- C6: when `GCP_PROJECT_NUMBER` is non-empty, the outbound calls of `handler` hold
no GET to the numeric-project-id endpoint, for every request body, every threshold and
every behaviour of the endpoints: neither the fallback of `handler` nor the one inside
`disableBilling` runs. -/
theorem handler_configured_no_lookup (j : Codec) (w : World) (body : String)
    (h : w.gcpProjectNumber ≠ "") :
    (handler j w body).state.trace.filter isProjectNumberLookup = [] := by
  cases hm : j.decodeEnvelope body with
  | error e => simp [(trace_of_bad_envelope j w body e hm)]
  | ok m =>
    cases hd : j.unmarshalPayload m.data with
    | error e => simp [(trace_of_bad_payload j w body m e hm hd)]
    | ok data =>
      rw [handler_decoded j w body m data hm hd]
      have hr : resolvedProjectNumber w = w.gcpProjectNumber := by
        simp [resolvedProjectNumber, h]
      simp only [h, if_false, hr, ne_eq, not_false_eq_true, if_true]
      by_cases ht : data.Threshold.ge Float64.one = true
      · simp only [ht, if_true]
        have hc := disableBilling_calls_of_ne j w w.gcpProjectNumber
          (logPrintln ⟨[], [LogLine.printf "Alert received! Threshold: %.2f"
            [Arg.float data.Threshold]]⟩
            "CRITICAL: 100% threshold reached. Initiating billing disconnect...") h
        have htok : isProjectNumberLookup tokenRequest = false := by decide
        have hput : ∀ k, isProjectNumberLookup (billingRequest j w.gcpProjectNumber k) = false := by
          intro k
          simp only [isProjectNumberLookup, billingRequest, Bool.and_eq_false_imp]
          intro hc
          exact absurd hc (by decide)
        generalize disableBilling j w w.gcpProjectNumber _ = out at hc
        obtain ⟨ex, s'⟩ := out
        simp only [logPrintln, List.nil_append] at hc
        rcases hc with hc | ⟨k, hc⟩
        · cases ex <;> simp [hc, htok]
        · cases ex <;> simp [hc, htok, hput k]
      · simp [ht]

/-- Witness of C6: the scenario with `GCP_PROJECT_NUMBER=12345` and threshold 1.0. -/
theorem handler_configured_no_lookup_witness :
    (handler sampleCodec worldConfigured envelopeFull).state.trace.filter isProjectNumberLookup
      = [] :=
  handler_configured_no_lookup sampleCodec _ envelopeFull (by decide)

/-- Counterexample to C7: with `GCP_PROJECT_NUMBER` unset and threshold 0.9, `handler`
makes an outbound call, the project-number lookup. -/
theorem handler_warning_unset_makes_lookup :
    sampleCodec.decodeEnvelope envelopeWarn = .ok ⟨payloadWarn⟩ ∧
    sampleCodec.unmarshalPayload payloadWarn = .ok ⟨ninetyPercent⟩ ∧
    ninetyPercent.lt Float64.one = true ∧
    (handler sampleCodec worldUnset envelopeWarn).state.trace = [projectNumberRequest] ∧
    (handler sampleCodec worldUnset envelopeWarn).state.trace ≠ [] := by
  refine ⟨rfl, rfl, by decide, by decide, by decide⟩

/-- C7, amended: when the envelope and the inner payload decode and the threshold is
below 1.0, the outbound calls of `handler` are exactly: none when `GCP_PROJECT_NUMBER`
is non-empty, and the single project-number lookup when it is unset or empty. In both
cases there is no token request and no billing PUT. -/
theorem handler_below_threshold_calls (j : Codec) (w : World) (body : String)
    (m : PubSubMessage) (data : BillingPayload) (hm : j.decodeEnvelope body = .ok m)
    (hd : j.unmarshalPayload m.data = .ok data)
    (ht : data.Threshold.lt Float64.one = true) :
    (handler j w body).state.trace =
      (if w.gcpProjectNumber = "" then [projectNumberRequest] else []) ∧
    (handler j w body).responseStatus = some 200 := by
  rw [handler_decoded j w body m data hm hd]
  simp only [Float64.ge_false_of_lt _ _ ht, Bool.false_eq_true, if_false]
  by_cases he : w.gcpProjectNumber = "" <;> simp [he, Result.responseStatus]

/-- Witness of C7, amended: threshold 0.9 with `GCP_PROJECT_NUMBER=12345`. -/
theorem handler_below_threshold_calls_witness :
    (handler sampleCodec worldConfigured envelopeWarn).state.trace =
      (if worldConfigured.gcpProjectNumber = "" then [projectNumberRequest] else []) ∧
    (handler sampleCodec worldConfigured envelopeWarn).responseStatus = some 200 :=
  handler_below_threshold_calls sampleCodec _ envelopeWarn ⟨payloadWarn⟩ ⟨ninetyPercent⟩
    rfl rfl (by decide)

/-- C8: when the metadata project-number lookup returns the empty string,
`disableBilling` called with the empty project number makes that lookup and nothing
else (no token request, no PUT), logs the failure and returns; and `handler`, with
`GCP_PROJECT_NUMBER` unset and a threshold of at least 1.0, makes the lookup and
nothing else, logs the error and still answers 200. -/
theorem unresolved_project_no_put (j : Codec) (w : World)
    (h : (getProjectNumberFromMetadata w ⟨[], []⟩).1 = some "") :
    (∀ l, disableBilling j w "" ⟨[], l⟩ =
      (Exit.returned, ⟨[projectNumberRequest],
        l ++ [LogLine.println "DEBUG: projectNumber empty, attempting metadata fetch...",
          LogLine.println "FAILURE: Could not determine Project Number."]⟩)) ∧
    (∀ body m data, w.gcpProjectNumber = "" → j.decodeEnvelope body = .ok m →
      j.unmarshalPayload m.data = .ok data → data.Threshold.ge Float64.one = true →
      (handler j w body).state.trace = [projectNumberRequest] ∧
      (handler j w body).state.log =
        [LogLine.printf "Alert received! Threshold: %.2f" [Arg.float data.Threshold],
          LogLine.println "The GCP_PROJECT_NUMBER environment variable is not set. Requesting the information from metadata server...",
          LogLine.println "ERROR: Threshold reached but Project Number is unknown!"] ∧
      (handler j w body).responseStatus = some 200) := by
  rw [getProjectNumberFromMetadata_eq] at h
  simp only [Option.some.injEq] at h
  constructor
  · intro l
    rw [disableBilling_empty]
    cases hr : w.roundTrip [] projectNumberRequest with
    | error e => simp
    | ok resp =>
      simp only [hr] at h
      simp [h]
  · intro body m data he hm hd ht
    rw [handler_decoded j w body m data hm hd]
    have hr : resolvedProjectNumber w = "" := by
      simp [resolvedProjectNumber, he, getProjectNumberFromMetadata_eq, h]
    simp [he, ht, hr, logPrintln, Result.responseStatus]

/-- Witness of C8: the metadata server is unreachable. -/
theorem unresolved_project_no_put_witness :
    disableBilling sampleCodec worldMetadataDown "" ⟨[], []⟩ =
      (Exit.returned, ⟨[projectNumberRequest],
        [LogLine.println "DEBUG: projectNumber empty, attempting metadata fetch...",
          LogLine.println "FAILURE: Could not determine Project Number."]⟩) ∧
    (handler sampleCodec worldMetadataDown envelopeFull).state.trace =
      [projectNumberRequest] :=
  ⟨(unresolved_project_no_put sampleCodec worldMetadataDown (by decide)).1 [],
   ((unresolved_project_no_put sampleCodec worldMetadataDown (by decide)).2 envelopeFull
      ⟨payloadFull⟩ ⟨Float64.one⟩ rfl rfl rfl (by decide)).1⟩

/-- Counterexample to C9: the metadata server answers the lookup with an error
response, status 404 and body `Not Found`; the function returns the trimmed body, not
the empty string. -/
theorem getProjectNumberFromMetadata_error_status :
    (getProjectNumberFromMetadata worldLookupNotFound ⟨[], []⟩).1 = some "Not Found" ∧
    (getProjectNumberFromMetadata worldLookupNotFound ⟨[], []⟩).1 ≠ some "" := by
  refine ⟨by decide, by decide⟩

/-- C9, amended: `getProjectNumberFromMetadata` makes one call, the GET to the
numeric-project-id endpoint with the header `Metadata-Flavor: Google`, and logs
nothing. It returns the empty string when that call fails in transport. For every
response received, whatever its status code and whether or not reading the body ended
in an error, it returns the bytes read with leading and trailing white space removed:
the bytes are the result between two runs of white space, and the result neither
starts nor ends with white space. -/
theorem getProjectNumberFromMetadata_result (w : World) (s : State) :
    (getProjectNumberFromMetadata w s).2 = ⟨s.trace ++ [projectNumberRequest], s.log⟩ ∧
    (∀ e, w.roundTrip s.trace projectNumberRequest = .error e →
      (getProjectNumberFromMetadata w s).1 = some "") ∧
    (∀ resp, w.roundTrip s.trace projectNumberRequest = .ok resp →
      (getProjectNumberFromMetadata w s).1 = some (trimSpace resp.body) ∧
      ∃ pre post, resp.body.data = pre ++ (trimSpace resp.body).data ++ post ∧
        pre.all isSpace = true ∧ post.all isSpace = true ∧
        (trimSpace resp.body).data.head?.any isSpace = false ∧
        (trimSpace resp.body).data.getLast?.any isSpace = false) := by
  rw [getProjectNumberFromMetadata_eq]
  refine ⟨rfl, ?_, ?_⟩
  · intro e he
    simp [he]
  · intro resp hr
    refine ⟨by simp [hr], ?_⟩
    exact trim_core isSpace resp.body.data

/-- C10: for every billing response received by `disableBilling(p)`, the last log line
is the success message naming `p` if and only if the status code is exactly 200; for
every other status code it is the failure message carrying the status text and the raw
response body. In both cases the calls are the token request and one PUT: no retry. -/
theorem disableBilling_outcome (j : Codec) (w : World) (p : String) (s : State)
    (tokenResp resp : Response) (hp : p ≠ "")
    (hu : urlParses (billingURL p) = true)
    (htok : w.roundTrip s.trace tokenRequest = .ok tokenResp)
    (hresp : w.roundTrip (s.trace ++ [tokenRequest])
      (billingRequest j p (j.decodeToken tokenResp.body)) = .ok resp) :
    (disableBilling j w p s).2.log =
      s.log ++ [LogLine.printf "DEBUG: Executing PUT to [%s]" [Arg.str (billingURL p)],
        if resp.StatusCode = 200 then
          LogLine.printf "SUCCESS: Project %s unlinked from billing." [Arg.str p]
        else
          LogLine.printf "FAILURE: Status %s - Body: %s"
            [Arg.str resp.Status, Arg.str resp.body]] ∧
    ((disableBilling j w p s).2.log.getLast? =
        some (LogLine.printf "SUCCESS: Project %s unlinked from billing." [Arg.str p]) ↔
      resp.StatusCode = 200) ∧
    (disableBilling j w p s).2.trace =
      s.trace ++ [tokenRequest, billingRequest j p (j.decodeToken tokenResp.body)] ∧
    (disableBilling j w p s).1 = Exit.returned := by
  rw [disableBilling_of_ne j w p s hp, htok]
  simp only [hu, if_true, hresp]
  by_cases h200 : resp.StatusCode = 200
  · simp [h200]
  · simp only [h200, if_false, and_true, true_and, iff_false]
    rw [List.getLast?_append]
    simp

/-- Witness of C10: `GCP_PROJECT_NUMBER=12345`, token `tok`, and the billing endpoint
answers 403 with the body of the scenario. -/
theorem disableBilling_outcome_witness :
    (disableBilling sampleCodec worldForbidden "12345" ⟨[], []⟩).2.log =
      [LogLine.printf "DEBUG: Executing PUT to [%s]"
          [Arg.str "https://cloudbilling.googleapis.com/v1/projects/12345/billingInfo"],
        LogLine.printf "FAILURE: Status %s - Body: %s"
          [Arg.str "403 Forbidden", Arg.str "\x7b\"error\":\"forbidden\"\x7d"]] :=
  (disableBilling_outcome sampleCodec worldForbidden "12345" ⟨[], []⟩
    (okResponse tokenDocument) ⟨403, "403 Forbidden", "\x7b\"error\":\"forbidden\"\x7d", none⟩
    (by decide) (by decide) rfl rfl).1.trans (by decide)

end Killswitch
